import Mathlib

/-!
Shallow embedding of `src/render/shadow.rs` from `bevy_infinite_grid` — the
grid-shadow render subsystem — together with theorems checking the
natural-language specification against it.

Machine integers are modelled as `Nat`.  Where `f32` arithmetic matters
(the texture-size computation), `f32` values are modelled as exact rationals
represented by numerator/denominator pairs, with the rounding of every `f32`
operation made explicit through `fl` (round-to-nearest, ties-to-even, 24-bit
significand).  External collaborators whose code is not part of this
repository (the pooled texture cache, the specialized-pipeline cache, the
material hook) are modelled from the specification's description of their
interfaces; each such definition carries a doc comment saying so.
-/

namespace GridShadowSpec

/-! ### A model of `f32` rounding

An exact rational is a pair `(n, d) : ℤ × ℕ` meaning `n / d`; every
constructor below keeps `d ≠ 0`.  Pairs are not normalised — only the final
`u32` outputs of the embedded code are compared in theorems.  The `f32`
values reachable in `shadow.rs` are derived from `u32` casts and their
quotients and products, so they lie in the normal range of `binary32`;
the model therefore implements round-to-nearest-even at 24 significand bits
and omits overflow and subnormal handling, which are unreachable here. -/

/-- Computes `⌊log2 n⌋` by fuelled structural recursion (exact for `1 ≤ n < 2^fuel`). -/
def fuelLog2 : ℕ → ℕ → ℕ
  | 0, _ => 0
  | fuel+1, n => if n ≤ 1 then 0 else fuelLog2 fuel (n / 2) + 1

/-- Round the rational `n/d` to the nearest integer, ties to even. -/
def rne (q : ℤ × ℕ) : ℤ :=
  let f := Int.fdiv q.1 q.2
  let r2 := 2 * (q.1 - f * q.2)
  if r2 < (q.2 : ℤ) then f
  else if (q.2 : ℤ) < r2 then f + 1
  else if f % 2 = 0 then f else f + 1

/-- Is `2^e ≤ n/d`?  (`d > 0`.) -/
def le2pow (e : ℤ) (q : ℤ × ℕ) : Bool :=
  match e with
  | .ofNat k => (Int.ofNat (2^k)) * q.2 ≤ q.1
  | .negSucc k => (q.2 : ℤ) ≤ q.1 * (Int.ofNat (2^(k+1)))

/-- Multiplies a pair by `2^e` exactly. -/
def mul2pow (e : ℤ) (q : ℤ × ℕ) : ℤ × ℕ :=
  match e with
  | .ofNat k => (q.1 * (Int.ofNat (2^k)), q.2)
  | .negSucc k => (q.1, q.2 * 2^(k+1))

/-- The binary exponent `e` with `2^e ≤ q < 2^(e+1)`, for `q > 0`. -/
def flExp (q : ℤ × ℕ) : ℤ :=
  let a : ℤ := fuelLog2 128 q.1.toNat
  let b : ℤ := fuelLog2 128 q.2
  let e0 := a - b
  if le2pow e0 q then e0 else e0 - 1

/-- Round a positive rational to 24 significand bits (nearest, ties even). -/
def flPos (q : ℤ × ℕ) : ℤ × ℕ :=
  let e := flExp q
  mul2pow (e - 23) (rne (mul2pow (23 - e) q), 1)

/-- Round a rational to the nearest `f32` value (normal range). -/
def fl (q : ℤ × ℕ) : ℤ × ℕ :=
  if q.1 = 0 then (0, 1)
  else if q.1 < 0 then
    let r := flPos (-q.1, q.2)
    (-r.1, r.2)
  else flPos q

/-- Exact quotient of two pairs.  A zero divisor is only reachable in
`shadow.rs` as `0 / 0` (window of physical size `0×0`), where Rust's
`NaN as u32` yields `0`; the model returns `0` there directly. -/
def qdiv (a b : ℤ × ℕ) : ℤ × ℕ :=
  if b.1 = 0 then (0, 1)
  else if b.1 < 0 then (-(a.1 * b.2), a.2 * (-b.1).toNat)
  else (a.1 * b.2, a.2 * b.1.toNat)

/-- Exact product of two pairs. -/
def qmul (a b : ℤ × ℕ) : ℤ × ℕ := (a.1 * b.1, a.2 * b.2)

/-- Models `f32` division: exact quotient, then one rounding. -/
def f32div (a b : ℤ × ℕ) : ℤ × ℕ := fl (qdiv a b)

/-- Models `f32` multiplication: exact product, then one rounding. -/
def f32mul (a b : ℤ × ℕ) : ℤ × ℕ := fl (qmul a b)

/-- Rust `u32 as f32`: rounds to nearest for values above `2^24`. -/
def u32_as_f32 (n : ℕ) : ℤ × ℕ := fl ((n : ℤ), 1)

/-- Rust `f32 as u32`: truncation toward zero, saturating at the bounds. -/
def f32_as_u32 (q : ℤ × ℕ) : ℕ :=
  if q.1 < 0 then 0 else min (q.1.toNat / q.2) (2^32 - 1)

/-! ### Texture sizing (`prepare_grid_shadow_views`, lines 301–312)

```rust
let comp = width < height;
let [min, max] = if comp { [width, height] } else { [height, width] };
let ratio = min as f32 / max as f32;
let tmax = settings.max_texture_size;
let tmin = (tmax as f32 * ratio) as u32;
let [width, height] = if comp { [tmin, tmax] } else { [tmax, tmin] };
```
-/

/-- The shadow-texture `(width, height)` computed by `prepare_grid_shadow_views`
from the primary window's physical size and `RenderSettings.max_texture_size`. -/
def computeShadowTextureSize (width height tmax : ℕ) : ℕ × ℕ :=
  let comp := decide (width < height)
  let mn := if comp then width else height
  let mx := if comp then height else width
  let ratio := f32div (u32_as_f32 mn) (u32_as_f32 mx)
  let tmin := f32_as_u32 (f32mul (u32_as_f32 tmax) ratio)
  if comp then (tmin, tmax) else (tmax, tmin)

/-! ### Orthographic projection area (`prepare_grid_shadow_views`, lines 332–341) -/

/-- bevy's `Rect`; `Rect::new(x0, y0, x1, y1)` stores the componentwise
minimum and maximum of the two corner points.  The `f32` coordinates are
modelled as exact rationals: the only arithmetic performed on them in
`shadow.rs` is division by `±2`, which is exact in `f32` for every normal
value. -/
structure Rect where
  min : ℚ × ℚ
  max : ℚ × ℚ
deriving DecidableEq

/-- bevy's `Rect::new`. -/
def Rect.new (x0 y0 x1 y1 : ℚ) : Rect :=
  ⟨(Min.min x0 x1, Min.min y0 y1), (Max.max x0 x1, Max.max y0 y1)⟩

/-- Modelled from the spec: `GridFrustumIntersect` (the `FrustumFootprint`
of the spec, computed outside this file) — the rectangular region of the grid
plane visible to the main camera.  Its definition lives outside
`src/render/shadow.rs`; only the fields read by `shadow.rs` are modelled. -/
structure GridFrustumIntersect where
  center : ℚ × ℚ × ℚ
  up_dir : ℚ × ℚ × ℚ
  width : ℚ
  height : ℚ

/-- The orthographic-projection `area` built by `prepare_grid_shadow_views`:
`Rect::new(width / -2., height / -2., width / 2., height / 2.)`. -/
def gridShadowProjectionArea (fi : GridFrustumIntersect) : Rect :=
  Rect.new (fi.width / -2) (fi.height / -2) (fi.width / 2) (fi.height / 2)

/-! ### The pooled texture allocator (`prepare_grid_shadow_views`, lines 313–330) -/

/-- The `wgpu` texture extent. -/
structure Extent3d where
  width : ℕ
  height : ℕ
  depth_or_array_layers : ℕ
deriving DecidableEq

/-- The texture formats this subsystem can mention. -/
inductive TextureFormat
  | R8Unorm
  | Rgba8Unorm
  | Depth32Float
deriving DecidableEq

/-- The `wgpu` texture dimension. -/
inductive TextureDimension
  | D1
  | D2
  | D3
deriving DecidableEq

/-- The `TextureUsages` bitflags, one `Bool` per flag used here. -/
structure TextureUsages where
  render_attachment : Bool
  texture_binding : Bool
  copy_src : Bool
  copy_dst : Bool
deriving DecidableEq

/-- The `wgpu` texture descriptor (the fields set in `shadow.rs`). -/
structure TextureDescriptor where
  label : Option String
  size : Extent3d
  mip_level_count : ℕ
  sample_count : ℕ
  dimension : TextureDimension
  format : TextureFormat
  usage : TextureUsages
deriving DecidableEq

/-- The descriptor literal passed to `texture_cache.get` by
`prepare_grid_shadow_views`: single-channel `R8Unorm`, 2D,
render-attachment + texture-binding usage, one mip level, sample count 1. -/
def gridShadowTextureDescriptor (width height : ℕ) : TextureDescriptor where
  label := some "grid_shadow_texture"
  size := ⟨width, height, 1⟩
  mip_level_count := 1
  sample_count := 1
  dimension := .D2
  format := .R8Unorm
  usage := ⟨true, true, false, false⟩

/-- Modelled from the spec: bevy's `TextureCache` (external to this
repository), the "generic pooled-texture allocator keyed by descriptor":
"pool returns an existing texture if a matching descriptor is already
allocated this frame, else allocates fresh."  Pooled textures are identified
by allocation ids; `next` is the next fresh id. -/
structure TextureCache where
  entries : List (TextureDescriptor × ℕ)
  next : ℕ

/-- Acquire a render target for a descriptor: return the texture already
allocated this frame under an identical descriptor if there is one, else
allocate a fresh one. -/
def TextureCache.get (c : TextureCache) (d : TextureDescriptor) : ℕ × TextureCache :=
  match c.entries.find? (fun p => decide (p.1 = d)) with
  | some p => (p.2, c)
  | none => (c.next, ⟨(d, c.next) :: c.entries, c.next + 1⟩)

/-- Well-formedness of the pool: allocation ids are pairwise distinct and
below the fresh-id counter. -/
def TextureCache.WF (c : TextureCache) : Prop :=
  (c.entries.map Prod.snd).Nodup ∧ ∀ p ∈ c.entries, p.2 < c.next

/-! ### Pipeline specialization (`GridShadowPipeline::specialize`, lines 167–242) -/

/-- Mesh vertex attributes that can appear in this subsystem. -/
inductive VertexAttr
  | position
  | normal
  | uv0
  | tangent
  | color
  | joint_index
  | joint_weight
deriving DecidableEq

/-- The `wgpu` primitive topologies. -/
inductive PrimitiveTopology
  | pointList
  | lineList
  | lineStrip
  | triangleList
  | triangleStrip
deriving DecidableEq

/-- The bits of bevy's `MeshPipelineKey` read by this subsystem: the
primitive topology and the `MORPH_TARGETS` flag. -/
structure MeshPipelineKey where
  topology : PrimitiveTopology
  morph_targets : Bool
deriving DecidableEq

/-- bevy's `MeshPipelineKey::from_primitive_topology`: encodes just the
topology (no morph flag). -/
def MeshPipelineKey.from_primitive_topology (t : PrimitiveTopology) : MeshPipelineKey :=
  ⟨t, false⟩

/-- bevy's `MeshPipelineKey::primitive_topology()`. -/
def MeshPipelineKey.primitive_topology (k : MeshPipelineKey) : PrimitiveTopology :=
  k.topology

/-- The key `MaterialPipelineKey<StandardMaterial>`: the mesh key plus the
material's bind-group data, the latter modelled as opaque hashable data. -/
structure MaterialPipelineKey where
  mesh_key : MeshPipelineKey
  bind_group_data : ℕ
deriving DecidableEq

/-- A mesh's vertex buffer layout: the set of vertex attributes the mesh
provides. -/
structure MeshVertexBufferLayout where
  attrs : List VertexAttr
deriving DecidableEq

def MeshVertexBufferLayout.contains (l : MeshVertexBufferLayout) (a : VertexAttr) : Bool :=
  decide (a ∈ l.attrs)

/-- Errors of `SpecializedMeshPipeline::specialize`. -/
inductive SpecializedMeshPipelineError
  | missingVertexAttribute
deriving DecidableEq

def errString : SpecializedMeshPipelineError → String
  | .missingVertexAttribute => "MissingVertexAttribute"

/-- The bind-group layouts referenced by the grid-shadow pipeline. -/
inductive BindGroupLayoutKind
  | view
  | material
  | meshModelOnly
  | meshSkinned
  | meshMorphed
  | meshMorphedSkinned
deriving DecidableEq

/-- Shader definitions pushed during specialization. -/
inductive ShaderDef
  | uintDef (defName : String) (val : ℕ)
  | flag (defName : String)
deriving DecidableEq

/-- bevy's `MAX_DIRECTIONAL_LIGHTS` (external constant; its value does not
matter to any claim). -/
def maxDirectionalLights : ℕ := 10

/-- bevy's `MAX_CASCADES_PER_LIGHT` (external constant; its value does not
matter to any claim). -/
def maxCascadesPerLight : ℕ := 4

/-- The weak shader handle `SHADOW_SHADER_HANDLE`. -/
def shadowShaderHandle : ℕ := 10461510954165139918

/-- A vertex stage: shader, entry point, shader defs, and one vertex buffer
layout — a list of `(attribute, shader_location)` pairs. -/
structure VertexState where
  shader : ℕ
  entry_point : String
  shader_defs : List ShaderDef
  buffers : List (List (VertexAttr × ℕ))
deriving DecidableEq

/-- The `wgpu` color-write mask, one `Bool` per channel. -/
structure ColorWrites where
  r : Bool
  g : Bool
  b : Bool
  a : Bool
deriving DecidableEq

/-- The mask `ColorWrites::RED`. -/
def ColorWrites.RED : ColorWrites := ⟨true, false, false, false⟩

/-- A color target: format, blend state (opaque; `none` = blending
disabled), write mask. -/
structure ColorTargetState where
  format : TextureFormat
  blend : Option Unit
  write_mask : ColorWrites
deriving DecidableEq

/-- A fragment stage. -/
structure FragmentState where
  shader : ℕ
  shader_defs : List ShaderDef
  entry_point : String
  targets : List (Option ColorTargetState)
deriving DecidableEq

inductive FrontFace
  | ccw
  | cw
deriving DecidableEq

inductive Face
  | front
  | back
deriving DecidableEq

inductive PolygonMode
  | fill
  | line
  | point
deriving DecidableEq

structure PrimitiveState where
  topology : PrimitiveTopology
  strip_index_format : Option Unit
  front_face : FrontFace
  cull_mode : Option Face
  unclipped_depth : Bool
  polygon_mode : PolygonMode
  conservative : Bool
deriving DecidableEq

structure MultisampleState where
  count : ℕ
  mask : ℕ
  alpha_to_coverage_enabled : Bool
deriving DecidableEq

/-- The value of `MultisampleState::default()`. -/
def MultisampleState.default : MultisampleState := ⟨1, 2^64 - 1, false⟩

structure RenderPipelineDescriptor where
  vertex : VertexState
  fragment : Option FragmentState
  layout : List BindGroupLayoutKind
  push_constant_ranges : List Unit
  primitive : PrimitiveState
  depth_stencil : Option Unit
  multisample : MultisampleState
  label : Option String
deriving DecidableEq

/-- Modelled from the spec: bevy's `setup_morph_and_skinning_defs` (external
to this repository) — injects the "optional skin/morph attributes injected by
the mesh layout" and selects the mesh bind-group layout.  A mesh is skinned
when its layout provides both joint attributes; it is morphed when the mesh
key carries the morph-targets flag.  Returns the injected vertex attributes
(at shader locations `offset = 4` and `5`), pushed shader defs, and the mesh
bind-group layout. -/
def setup_morph_and_skinning_defs (layout : MeshVertexBufferLayout)
    (key : MeshPipelineKey) :
    List (VertexAttr × ℕ) × List ShaderDef × BindGroupLayoutKind :=
  let is_skinned := layout.contains .joint_index && layout.contains .joint_weight
  match is_skinned, key.morph_targets with
  | true, false =>
    ([(.joint_index, 4), (.joint_weight, 5)], [.flag "SKINNED"], .meshSkinned)
  | true, true =>
    ([(.joint_index, 4), (.joint_weight, 5)], [.flag "SKINNED", .flag "MORPH_TARGETS"],
      .meshMorphedSkinned)
  | false, true => ([], [.flag "MORPH_TARGETS"], .meshMorphed)
  | false, false => ([], [], .meshModelOnly)

/-- The method `MeshVertexBufferLayout::get_layout`: succeeds with the requested
attribute list iff the mesh provides every requested attribute. -/
def MeshVertexBufferLayout.get_layout (l : MeshVertexBufferLayout)
    (requested : List (VertexAttr × ℕ)) :
    Except SpecializedMeshPipelineError (List (VertexAttr × ℕ)) :=
  if requested.all (fun p => l.contains p.1) then .ok requested
  else .error .missingVertexAttribute

/-- Modelled from the spec: `StandardMaterial::specialize` (external bevy
code).  The spec states the final pipeline state of the grid-shadow
specialization (single red-channel `R8Unorm` target, no blending, no
depth/stencil, culling disabled, fill mode, topology from the key), so the
external material hook is modelled as returning the descriptor unchanged. -/
def StandardMaterial.specialize (d : RenderPipelineDescriptor) :
    Except SpecializedMeshPipelineError RenderPipelineDescriptor :=
  .ok d

/-- The embedding of `GridShadowPipeline::specialize` (lines 170–242). -/
def GridShadowPipeline.specialize (key : MaterialPipelineKey)
    (layout : MeshVertexBufferLayout) :
    Except SpecializedMeshPipelineError RenderPipelineDescriptor :=
  let s := setup_morph_and_skinning_defs layout key.mesh_key
  let vertex_attributes := [((VertexAttr.position), 0)] ++ s.1
  let shader_defs :=
    [ShaderDef.uintDef "MAX_DIRECTIONAL_LIGHTS" maxDirectionalLights,
     ShaderDef.uintDef "MAX_CASCADES_PER_LIGHT" maxCascadesPerLight] ++ s.2.1
  let bind_group_layouts := [BindGroupLayoutKind.view, BindGroupLayoutKind.material, s.2.2]
  match layout.get_layout vertex_attributes with
  | .error e => .error e
  | .ok vertex_buffer_layout =>
    StandardMaterial.specialize
      { vertex :=
          { shader := shadowShaderHandle
            entry_point := "vertex"
            shader_defs := shader_defs
            buffers := [vertex_buffer_layout] }
        fragment := some
          { shader := shadowShaderHandle
            shader_defs := shader_defs
            entry_point := "fragment"
            targets := [some
              { format := .R8Unorm
                blend := none
                write_mask := ColorWrites.RED }] }
        layout := bind_group_layouts
        push_constant_ranges := []
        primitive :=
          { topology := key.mesh_key.primitive_topology
            strip_index_format := none
            front_face := .ccw
            cull_mode := none
            unclipped_depth := false
            polygon_mode := .fill
            conservative := false }
        depth_stencil := none
        multisample := MultisampleState.default
        label := some "grid_shadow_pipeline" }

/-- Modelled from the spec: bevy's `SpecializedMeshPipelines` resource
(external to this repository) — a process-wide cache of specialized
pipelines: "results are cached by `PipelineKey`; repeated calls with an
identical key return the same handle without rebuilding."  Pipeline handles
are allocation ids; `next_id` is the next fresh id. -/
structure SpecializedMeshPipelines where
  cache : List ((MaterialPipelineKey × MeshVertexBufferLayout) × ℕ)
  next_id : ℕ

/-- Look the `(key, layout)` pair up in the cache; on a miss, build the
pipeline through `GridShadowPipeline.specialize` and insert it under a fresh
id, propagating specialization errors. -/
def SpecializedMeshPipelines.specialize (s : SpecializedMeshPipelines)
    (key : MaterialPipelineKey) (layout : MeshVertexBufferLayout) :
    Except SpecializedMeshPipelineError (ℕ × SpecializedMeshPipelines) :=
  match s.cache.find? (fun p => decide (p.1 = (key, layout))) with
  | some p => .ok (p.2, s)
  | none =>
    match GridShadowPipeline.specialize key layout with
    | .error e => .error e
    | .ok _ => .ok (s.next_id, ⟨((key, layout), s.next_id) :: s.cache, s.next_id + 1⟩)

/-! ### Draw queueing (`queue_grid_shadows`, lines 409–465) -/

/-- Entity ids. -/
abbrev Entity := ℕ

/-- The fields of bevy's `RenderMeshInstance` read by this subsystem. -/
structure RenderMeshInstance where
  shadow_caster : Bool
  mesh_asset_id : ℕ
deriving DecidableEq

/-- A render-ready mesh asset: its topology and vertex layout. -/
structure MeshData where
  primitive_topology : PrimitiveTopology
  layout : MeshVertexBufferLayout
deriving DecidableEq

/-- A prepared material: its bind-group key. -/
structure MaterialData where
  key : ℕ
deriving DecidableEq

/-- The `GridShadow` phase item (lines 61–67). -/
structure GridShadow where
  entity : Entity
  pipeline : ℕ
  draw_function : ℕ
  batch_range : ℕ × ℕ
  dynamic_offset : Option ℕ
deriving DecidableEq

/-- The resources read by `queue_grid_shadows`: mesh/material instance maps
(per entity) and the mesh/material asset registries (per asset id). -/
structure QueueInputs where
  render_meshes : ℕ → Option MeshData
  render_mesh_instances : Entity → Option RenderMeshInstance
  render_materials : ℕ → Option MaterialData
  render_material_instances : Entity → Option ℕ

/-- The body of `queue_grid_shadows`' inner loop for one visible entity:
require the mesh instance and material instance, skip non-shadow-casters,
require both assets to resolve, specialize the pipeline (logging and
skipping on error), and otherwise emit the phase item with
`batch_range 0..1` and no dynamic offset.  Returns the optional item, the
updated pipeline cache, and the error log. -/
def queueEntity (ctx : QueueInputs) (draw_shadow_mesh : ℕ)
    (pipelines : SpecializedMeshPipelines) (entity : Entity) :
    Option GridShadow × SpecializedMeshPipelines × List String :=
  match ctx.render_mesh_instances entity, ctx.render_material_instances entity with
  | some mesh_instance, some material_asset_id =>
    if !mesh_instance.shadow_caster then (none, pipelines, [])
    else
      match ctx.render_meshes mesh_instance.mesh_asset_id,
            ctx.render_materials material_asset_id with
      | some mesh, some material =>
        match pipelines.specialize
            ⟨MeshPipelineKey.from_primitive_topology mesh.primitive_topology,
              material.key⟩ mesh.layout with
        | .ok r => (some ⟨entity, r.1, draw_shadow_mesh, (0, 1), none⟩, r.2, [])
        | .error err => (none, pipelines, [errString err])
      | _, _ => (none, pipelines, [])
  | _, _ => (none, pipelines, [])

/-- One grid's phase: fold `queueEntity` over the grid's visible entities,
threading the pipeline cache and concatenating items and logs. -/
def queueGrid (ctx : QueueInputs) (draw_shadow_mesh : ℕ) :
    List Entity → SpecializedMeshPipelines →
    List GridShadow × SpecializedMeshPipelines × List String
  | [], pipelines => ([], pipelines, [])
  | e :: rest, pipelines =>
    let r1 := queueEntity ctx draw_shadow_mesh pipelines e
    let r2 := queueGrid ctx draw_shadow_mesh rest r1.2.1
    (r1.1.toList ++ r2.1, r2.2.1, r1.2.2 ++ r2.2.2)

/-- The system `queue_grid_shadows` over all grids (each with its visible-entity set),
producing one phase per grid. -/
def queue_grid_shadows (ctx : QueueInputs) (draw_shadow_mesh : ℕ) :
    List (List Entity) → SpecializedMeshPipelines →
    List (List GridShadow) × SpecializedMeshPipelines × List String
  | [], pipelines => ([], pipelines, [])
  | g :: rest, pipelines =>
    let r1 := queueGrid ctx draw_shadow_mesh g pipelines
    let r2 := queue_grid_shadows ctx draw_shadow_mesh rest r1.2.1
    (r1.1 :: r2.1, r2.2.1, r1.2.2 ++ r2.2.2)

end GridShadowSpec

namespace GridShadowSpec

/-! ### Lemmas about queueing -/

/-- A queued item's entity is the processed entity, and it implies the full
resolution chain: mesh instance present with `shadow_caster`, material
instance present, and both assets resolved. -/
theorem queueEntity_some (ctx : QueueInputs) (f : ℕ)
    (p : SpecializedMeshPipelines) (e : Entity) (item : GridShadow)
    (h : (queueEntity ctx f p e).1 = some item) :
    item.entity = e ∧
    ∃ mi, ctx.render_mesh_instances e = some mi ∧ mi.shadow_caster = true ∧
      ∃ aid mesh mat, ctx.render_material_instances e = some aid ∧
        ctx.render_meshes mi.mesh_asset_id = some mesh ∧
        ctx.render_materials aid = some mat := by
  unfold queueEntity at h
  cases h1 : ctx.render_mesh_instances e with
  | none => simp [h1] at h
  | some mi =>
    cases h2 : ctx.render_material_instances e with
    | none => simp [h1, h2] at h
    | some aid =>
      cases h3 : mi.shadow_caster with
      | false => simp [h1, h2, h3] at h
      | true =>
        cases h4 : ctx.render_meshes mi.mesh_asset_id with
        | none => simp [h1, h2, h3, h4] at h
        | some mesh =>
          cases h5 : ctx.render_materials aid with
          | none => simp [h1, h2, h3, h4, h5] at h
          | some mat =>
            cases h6 : p.specialize
                ⟨MeshPipelineKey.from_primitive_topology mesh.primitive_topology,
                  mat.key⟩ mesh.layout with
            | error err => simp [h1, h2, h3, h4, h5, h6] at h
            | ok r =>
              simp [h1, h2, h3, h4, h5, h6] at h
              refine ⟨?_, mi, rfl, h3, aid, mesh, mat, rfl, h4, h5⟩
              rw [← h]

/-- Every item of a grid's phase was produced by `queueEntity` for its own
entity, from some intermediate pipeline-cache state. -/
theorem queueGrid_mem (ctx : QueueInputs) (f : ℕ) :
    ∀ (es : List Entity) (p : SpecializedMeshPipelines) (item : GridShadow),
      item ∈ (queueGrid ctx f es p).1 →
      ∃ p₀, (queueEntity ctx f p₀ item.entity).1 = some item := by
  intro es
  induction es with
  | nil => intro p item h; simp [queueGrid] at h
  | cons e rest ih =>
    intro p item h
    simp only [queueGrid] at h
    rcases List.mem_append.mp h with h' | h'
    · cases hq : (queueEntity ctx f p e).1 with
      | none => rw [hq] at h'; simp at h'
      | some it =>
        rw [hq] at h'
        simp at h'
        subst h'
        exact ⟨p, by rw [(queueEntity_some ctx f p e item hq).1]; exact hq⟩
    · exact ih _ item h'

/-- Every phase of the multi-grid queue output is a `queueGrid` output. -/
theorem queue_grid_shadows_phases (ctx : QueueInputs) (f : ℕ) :
    ∀ (grids : List (List Entity)) (p : SpecializedMeshPipelines)
      (phase : List GridShadow),
      phase ∈ (queue_grid_shadows ctx f grids p).1 →
      ∃ es p₀, phase = (queueGrid ctx f es p₀).1 := by
  intro grids
  induction grids with
  | nil => intro p phase h; simp [queue_grid_shadows] at h
  | cons g rest ih =>
    intro p phase h
    simp only [queue_grid_shadows] at h
    rcases List.mem_cons.mp h with h' | h'
    · exact ⟨g, p, h'⟩
    · exact ih _ phase h'

/-- C3: a `GridShadow` item is queued for an entity only if its mesh
instance exists with `shadow_caster = true`, its material instance exists,
and both the mesh and the material assets resolve this frame; in particular
an entity whose mesh instance has `shadow_caster = false` never appears in
any grid's shadow phase. -/
theorem queue_grid_shadows_only_shadow_casters
    (ctx : QueueInputs) (f : ℕ) (grids : List (List Entity))
    (p : SpecializedMeshPipelines) :
    (∀ phase ∈ (queue_grid_shadows ctx f grids p).1, ∀ item ∈ phase,
      ∃ mi, ctx.render_mesh_instances item.entity = some mi ∧
        mi.shadow_caster = true ∧
        ∃ aid mesh mat, ctx.render_material_instances item.entity = some aid ∧
          ctx.render_meshes mi.mesh_asset_id = some mesh ∧
          ctx.render_materials aid = some mat) ∧
    (∀ (e : Entity) (mi : RenderMeshInstance),
      ctx.render_mesh_instances e = some mi → mi.shadow_caster = false →
      ∀ phase ∈ (queue_grid_shadows ctx f grids p).1, ∀ item ∈ phase,
        item.entity ≠ e) := by
  have main : ∀ phase ∈ (queue_grid_shadows ctx f grids p).1, ∀ item ∈ phase,
      ∃ mi, ctx.render_mesh_instances item.entity = some mi ∧
        mi.shadow_caster = true ∧
        ∃ aid mesh mat, ctx.render_material_instances item.entity = some aid ∧
          ctx.render_meshes mi.mesh_asset_id = some mesh ∧
          ctx.render_materials aid = some mat := by
    intro phase hphase item hitem
    obtain ⟨es, p₀, hp⟩ := queue_grid_shadows_phases ctx f grids p phase hphase
    subst hp
    obtain ⟨p₁, hq⟩ := queueGrid_mem ctx f es p₀ item hitem
    exact (queueEntity_some ctx f p₁ item.entity item hq).2
  refine ⟨main, ?_⟩
  intro e mi hmi hfalse phase hphase item hitem hne
  obtain ⟨mi', hmi', hcast, _⟩ := main phase hphase item hitem
  rw [hne, hmi] at hmi'
  cases Option.some.inj hmi'
  rw [hfalse] at hcast
  cases hcast

/-- Inputs with one fully resolving shadow-casting entity `0` whose mesh
provides the position attribute. -/
def queueOkInputs : QueueInputs where
  render_meshes := fun i => if i = 0 then some ⟨.triangleList, ⟨[.position]⟩⟩ else none
  render_mesh_instances := fun e => if e = 0 then some ⟨true, 0⟩ else none
  render_materials := fun i => if i = 0 then some ⟨7⟩ else none
  render_material_instances := fun e => if e = 0 then some 0 else none

/-- Witness for `queue_grid_shadows_only_shadow_casters` at a concrete
queued item. -/
theorem queue_grid_shadows_only_shadow_casters_witness :
    ([⟨0, 0, 5, (0, 1), none⟩] ∈
      (queue_grid_shadows queueOkInputs 5 [[0]] ⟨[], 0⟩).1) ∧
    ((⟨0, 0, 5, (0, 1), none⟩ : GridShadow) ∈
      ([⟨0, 0, 5, (0, 1), none⟩] : List GridShadow)) ∧
    ∃ mi, queueOkInputs.render_mesh_instances
        (⟨0, 0, 5, (0, 1), none⟩ : GridShadow).entity = some mi ∧
      mi.shadow_caster = true ∧
      ∃ aid mesh mat,
        queueOkInputs.render_material_instances
          (⟨0, 0, 5, (0, 1), none⟩ : GridShadow).entity = some aid ∧
        queueOkInputs.render_meshes mi.mesh_asset_id = some mesh ∧
        queueOkInputs.render_materials aid = some mat :=
  ⟨by decide, by decide,
    (queue_grid_shadows_only_shadow_casters queueOkInputs 5 [[0]] ⟨[], 0⟩).1
      [⟨0, 0, 5, (0, 1), none⟩] (by decide) ⟨0, 0, 5, (0, 1), none⟩ (by decide)⟩

/-- C7: when pipeline specialization fails for a visible entity that
otherwise fully resolves, `queue_grid_shadows` logs the error and skips only
that entity for the frame: the entity contributes no item, the pipeline
cache is untouched, and queueing of every remaining entity of every grid
proceeds exactly as if the failing entity were absent — the failure is never
fatal (the queue functions are total). -/
theorem queue_grid_shadows_specialize_error_skips_entity
    (ctx : QueueInputs) (f : ℕ) (p : SpecializedMeshPipelines) (e : Entity)
    (mi : RenderMeshInstance) (aid : ℕ) (mesh : MeshData) (mat : MaterialData)
    (err : SpecializedMeshPipelineError)
    (h1 : ctx.render_mesh_instances e = some mi)
    (h2 : mi.shadow_caster = true)
    (h3 : ctx.render_material_instances e = some aid)
    (h4 : ctx.render_meshes mi.mesh_asset_id = some mesh)
    (h5 : ctx.render_materials aid = some mat)
    (h6 : p.specialize
      ⟨MeshPipelineKey.from_primitive_topology mesh.primitive_topology, mat.key⟩
      mesh.layout = .error err) :
    queueEntity ctx f p e = (none, p, [errString err]) ∧
    (∀ ys, queueGrid ctx f (e :: ys) p =
      ((queueGrid ctx f ys p).1, (queueGrid ctx f ys p).2.1,
        errString err :: (queueGrid ctx f ys p).2.2)) ∧
    (∀ ys gs, queue_grid_shadows ctx f ((e :: ys) :: gs) p =
      ((queueGrid ctx f ys p).1 ::
          (queue_grid_shadows ctx f gs (queueGrid ctx f ys p).2.1).1,
        (queue_grid_shadows ctx f gs (queueGrid ctx f ys p).2.1).2.1,
        (errString err :: (queueGrid ctx f ys p).2.2) ++
          (queue_grid_shadows ctx f gs (queueGrid ctx f ys p).2.1).2.2)) := by
  have hq : queueEntity ctx f p e = (none, p, [errString err]) := by
    simp [queueEntity, h1, h2, h3, h4, h5, h6]
  refine ⟨hq, fun ys => by simp [queueGrid, hq], fun ys gs => by
    simp [queue_grid_shadows, queueGrid, hq]⟩

/-- Inputs with one fully resolving shadow-casting entity `0` whose mesh
provides no vertex attributes, so specialization fails with
`MissingVertexAttribute`. -/
def queueErrInputs : QueueInputs where
  render_meshes := fun i => if i = 0 then some ⟨.triangleList, ⟨[]⟩⟩ else none
  render_mesh_instances := fun e => if e = 0 then some ⟨true, 0⟩ else none
  render_materials := fun i => if i = 0 then some ⟨7⟩ else none
  render_material_instances := fun e => if e = 0 then some 0 else none

/-- Witness for `queue_grid_shadows_specialize_error_skips_entity` at the
failing entity `0` followed by entity `3`. -/
theorem queue_grid_shadows_specialize_error_witness :
    queueErrInputs.render_mesh_instances 0 = some ⟨true, 0⟩ ∧
    queueEntity queueErrInputs 5 ⟨[], 0⟩ 0 =
      (none, ⟨[], 0⟩, [errString .missingVertexAttribute]) ∧
    queueGrid queueErrInputs 5 [0, 3] ⟨[], 0⟩ =
      ((queueGrid queueErrInputs 5 [3] ⟨[], 0⟩).1,
        (queueGrid queueErrInputs 5 [3] ⟨[], 0⟩).2.1,
        errString .missingVertexAttribute ::
          (queueGrid queueErrInputs 5 [3] ⟨[], 0⟩).2.2) :=
  ⟨rfl,
    (queue_grid_shadows_specialize_error_skips_entity queueErrInputs 5 ⟨[], 0⟩ 0
      ⟨true, 0⟩ 0 ⟨.triangleList, ⟨[]⟩⟩ ⟨7⟩ .missingVertexAttribute
      rfl rfl rfl rfl rfl rfl).1,
    (queue_grid_shadows_specialize_error_skips_entity queueErrInputs 5 ⟨[], 0⟩ 0
      ⟨true, 0⟩ 0 ⟨.triangleList, ⟨[]⟩⟩ ⟨7⟩ .missingVertexAttribute
      rfl rfl rfl rfl rfl rfl).2.1 [3]⟩

end GridShadowSpec

namespace GridShadowSpec

/-! ### The render-graph node (`GridShadowPassNode`, lines 489–550) and the
phase item's sort key (lines 77–80) -/

/-- The per-grid prepared shadow view component: its texture view id. -/
structure GridShadowView where
  texture_view : ℕ
deriving DecidableEq

/-- An RGBA color. -/
structure Color where
  r : ℚ
  g : ℚ
  b : ℚ
  a : ℚ
deriving DecidableEq

/-- The color `Color::BLACK`. -/
def Color.BLACK : Color := ⟨0, 0, 0, 1⟩

/-- The `wgpu` load operation of a color attachment. -/
inductive LoadOp
  | clear (c : Color)
  | load
deriving DecidableEq

/-- The `wgpu` store operation of a color attachment. -/
inductive StoreOp
  | store
  | discard
deriving DecidableEq

/-- One render pass begun by the node: its color attachment (texture view,
load/store ops), no depth/stencil attachment, and the phase items drawn
into it, in phase order (the phase is never sorted). -/
structure RenderPassRecord where
  view : ℕ
  load : LoadOp
  store : StoreOp
  depth_stencil_attachment : Option Unit
  items : List GridShadow
deriving DecidableEq

/-- The render-world components read by `GridShadowPassNode::run`, per
entity. -/
structure NodeWorld where
  grid_shadow_view : Entity → Option GridShadowView
  render_phase : Entity → Option (List GridShadow)
  view_uniform_offset : Entity → Option ℕ

/-- The node state: the snapshot of grid entities taken by `update`. -/
structure GridShadowPassNode where
  grids : List Entity

/-- The loop of `GridShadowPassNode::run`: for each snapshotted grid, fetch
its three components (the `.unwrap()` panics — modelled as an error — if any
is missing), begin a render pass clearing to black with a store op and no
depth attachment, and render the grid's phase into it in order. -/
def runGrids (world : NodeWorld) :
    List Entity → List RenderPassRecord → Except String (List RenderPassRecord)
  | [], passes => .ok passes
  | e :: rest, passes =>
    match world.grid_shadow_view e, world.render_phase e,
        world.view_uniform_offset e with
    | some sv, some phase, some _ =>
      runGrids world rest
        (passes ++ [⟨sv.texture_view, .clear Color.BLACK, .store, none, phase⟩])
    | _, _, _ => .error "called Option unwrap on a None value"

/-- The node method `GridShadowPassNode::run`, threading the list of render passes recorded
so far in the frame. -/
def GridShadowPassNode.run (node : GridShadowPassNode) (world : NodeWorld)
    (passes : List RenderPassRecord) : Except String (List RenderPassRecord) :=
  runGrids world node.grids passes

/-- The method `GridShadow::sort_key` (lines 77–80): an unconditional `unimplemented!`
panic, modelled as an error value. -/
def GridShadow.sort_key (_item : GridShadow) : Except String ℚ :=
  .error "not implemented: grid shadows do not need sorting"

/-! ### The view bind group (`GridShadowMeta`, lines 245–281 and
`prepare_grid_shadow_view_bind_group`, lines 363–376) -/

/-- The `GridShadowMeta` resource: the cached view bind group. -/
structure GridShadowMeta where
  view_bind_group : Option ℕ
deriving DecidableEq

/-- The system `prepare_grid_shadow_view_bind_group`: if the view-uniform buffer has a
valid binding this frame, store a fresh bind group wrapping it; otherwise do
nothing (the previously stored bind group is left unchanged). -/
def prepare_grid_shadow_view_bind_group (view_binding : Option ℕ)
    (meta : GridShadowMeta) : GridShadowMeta :=
  match view_binding with
  | some binding => ⟨some binding⟩
  | none => meta

/-- The command `SetGridShadowViewBindGroup::render`: unwraps the cached view bind group
(a panic — modelled as an error — when it was never set) and sets it at the
slot with the view's dynamic offset. -/
def SetGridShadowViewBindGroup.render (meta : GridShadowMeta)
    (view_uniform_offset : ℕ) : Except String (ℕ × List ℕ) :=
  match meta.view_bind_group with
  | some bg => .ok (bg, [view_uniform_offset])
  | none => .error "called Option unwrap on a None value"

end GridShadowSpec

namespace GridShadowSpec

/-! ### Theorems for claims C8, C9 and C10 -/

/-- C8: in a frame where zero grid entities have a prepared shadow view (the
node's snapshot list is empty), `GridShadowPassNode::run` begins zero render
passes and leaves the frame's recorded passes untouched. -/
theorem grid_shadow_pass_node_run_empty (world : NodeWorld)
    (passes : List RenderPassRecord) :
    GridShadowPassNode.run ⟨[]⟩ world passes = .ok passes := rfl

theorem prepare_preserves_some (b : Option ℕ) (meta : GridShadowMeta)
    (h : meta.view_bind_group.isSome = true) :
    (prepare_grid_shadow_view_bind_group b meta).view_bind_group.isSome = true := by
  cases b <;> simp [prepare_grid_shadow_view_bind_group, h]

theorem render_ok_of_isSome (meta : GridShadowMeta)
    (h : meta.view_bind_group.isSome = true) :
    ∀ off, ∃ r, SetGridShadowViewBindGroup.render meta off = .ok r := by
  intro off
  obtain ⟨bg, hbg⟩ := Option.isSome_iff_exists.mp h
  exact ⟨(bg, [off]), by simp [SetGridShadowViewBindGroup.render, hbg]⟩

/-- C9: `GridShadow::sort_key` diverges unconditionally (it is an
`unimplemented!` panic), and the panic is unreachable in normal operation:
the pass node renders each phase without ever sorting it, so whenever the
snapshotted grids have their components, `run` completes without reaching
any panic. -/
theorem grid_shadow_sort_key_unreachable :
    (∀ item : GridShadow, item.sort_key =
      .error "not implemented: grid shadows do not need sorting") ∧
    (∀ (node : GridShadowPassNode) (world : NodeWorld)
      (passes : List RenderPassRecord),
      (∀ e ∈ node.grids, (world.grid_shadow_view e).isSome = true ∧
        (world.render_phase e).isSome = true ∧
        (world.view_uniform_offset e).isSome = true) →
      ∃ r, node.run world passes = .ok r) := by
  refine ⟨fun _ => rfl, ?_⟩
  intro node world passes h
  unfold GridShadowPassNode.run
  revert h
  generalize node.grids = es
  induction es generalizing passes with
  | nil => intro _; exact ⟨passes, rfl⟩
  | cons e rest ih =>
    intro h
    obtain ⟨h1, h2, h3⟩ := h e (List.mem_cons_self e rest)
    obtain ⟨sv, hsv⟩ := Option.isSome_iff_exists.mp h1
    obtain ⟨ph, hph⟩ := Option.isSome_iff_exists.mp h2
    obtain ⟨off, hoff⟩ := Option.isSome_iff_exists.mp h3
    simp only [runGrids, hsv, hph, hoff]
    exact ih _ (fun e' he' => h e' (List.mem_cons_of_mem _ he'))

/-- A world in which every entity has all three node components. -/
def nodeWitnessWorld : NodeWorld :=
  ⟨fun _ => some ⟨3⟩, fun _ => some [], fun _ => some 0⟩

/-- Witness for `grid_shadow_sort_key_unreachable` at a one-grid node. -/
theorem grid_shadow_sort_key_unreachable_witness :
    (∀ e ∈ ([0] : List Entity),
      (nodeWitnessWorld.grid_shadow_view e).isSome = true ∧
      (nodeWitnessWorld.render_phase e).isSome = true ∧
      (nodeWitnessWorld.view_uniform_offset e).isSome = true) ∧
    ∃ r, GridShadowPassNode.run ⟨[0]⟩ nodeWitnessWorld [] = .ok r :=
  ⟨by decide,
    grid_shadow_sort_key_unreachable.2 ⟨[0]⟩ nodeWitnessWorld [] (by decide)⟩

/-- C10: a frame without a valid view-uniform binding leaves the previously
stored view bind group unchanged (it is never reset to `none`); consequently
once any frame has set it, it stays set across all later frames and
`SetGridShadowViewBindGroup::render` can no longer hit its unwrap panic. -/
theorem grid_shadow_view_bind_group_persistent :
    (∀ meta : GridShadowMeta,
      prepare_grid_shadow_view_bind_group none meta = meta) ∧
    (∀ (frames : List (Option ℕ)) (meta : GridShadowMeta),
      (meta.view_bind_group.isSome = true ∨ ∃ b ∈ frames, b.isSome = true) →
      ((frames.foldl (fun m b => prepare_grid_shadow_view_bind_group b m)
          meta).view_bind_group.isSome = true ∧
        ∀ off, ∃ r, SetGridShadowViewBindGroup.render
          (frames.foldl (fun m b => prepare_grid_shadow_view_bind_group b m)
            meta) off = .ok r)) := by
  have part2 : ∀ (frames : List (Option ℕ)) (meta : GridShadowMeta),
      (meta.view_bind_group.isSome = true ∨ ∃ b ∈ frames, b.isSome = true) →
      (frames.foldl (fun m b => prepare_grid_shadow_view_bind_group b m)
        meta).view_bind_group.isSome = true := by
    intro frames
    induction frames with
    | nil =>
      intro meta h
      rcases h with h | ⟨b, hb, _⟩
      · simpa using h
      · simp at hb
    | cons b rest ih =>
      intro meta h
      simp only [List.foldl_cons]
      rcases h with h | ⟨b', hb', hsome⟩
      · exact ih _ (Or.inl (prepare_preserves_some b meta h))
      · rcases List.mem_cons.mp hb' with rfl | hb'rest
        · refine ih _ (Or.inl ?_)
          obtain ⟨x, hx⟩ := Option.isSome_iff_exists.mp hsome
          subst hx
          simp [prepare_grid_shadow_view_bind_group]
        · exact ih _ (Or.inr ⟨b', hb'rest, hsome⟩)
  refine ⟨fun meta => rfl, fun frames meta h => ?_⟩
  have hs := part2 frames meta h
  exact ⟨hs, render_ok_of_isSome _ hs⟩

/-- Witness for `grid_shadow_view_bind_group_persistent`: a binding in the
first frame, none in the second, starting from an unset meta. -/
theorem grid_shadow_view_bind_group_persistent_witness :
    ((⟨none⟩ : GridShadowMeta).view_bind_group.isSome = true ∨
      ∃ b ∈ [some 5, none], b.isSome = true) ∧
    (([some 5, none].foldl (fun m b => prepare_grid_shadow_view_bind_group b m)
        (⟨none⟩ : GridShadowMeta)).view_bind_group.isSome = true ∧
      ∀ off, ∃ r, SetGridShadowViewBindGroup.render
        ([some 5, none].foldl (fun m b => prepare_grid_shadow_view_bind_group b m)
          (⟨none⟩ : GridShadowMeta)) off = .ok r) :=
  ⟨by decide,
    grid_shadow_view_bind_group_persistent.2 [some 5, none] ⟨none⟩ (by decide)⟩

end GridShadowSpec

namespace GridShadowSpec

/-! ### Lemmas about the texture pool -/

theorem TextureCache.get_wf (c : TextureCache) (d : TextureDescriptor)
    (hwf : c.WF) : (c.get d).2.WF := by
  obtain ⟨hnd, hlt⟩ := hwf
  unfold TextureCache.get
  cases hfind : c.entries.find? (fun p => decide (p.1 = d)) with
  | some p => exact ⟨hnd, hlt⟩
  | none =>
    refine ⟨?_, ?_⟩
    · simp only [List.map_cons, List.nodup_cons]
      constructor
      · intro hmem
        obtain ⟨q, hq, hq2⟩ := List.mem_map.mp hmem
        exact absurd hq2 (Nat.ne_of_lt (hlt q hq))
      · exact hnd
    · intro p hp
      rcases List.mem_cons.mp hp with h | h
      · simp [h]
      · exact Nat.lt_succ_of_lt (hlt p h)

theorem TextureCache.get_mem (c : TextureCache) (d : TextureDescriptor) :
    (d, (c.get d).1) ∈ (c.get d).2.entries := by
  unfold TextureCache.get
  cases hfind : c.entries.find? (fun p => decide (p.1 = d)) with
  | some p =>
    have hmem := List.mem_of_find?_eq_some hfind
    have hpd : p.1 = d := by
      have := List.find?_some hfind
      simpa using this
    simpa [← hpd] using hmem
  | none => simp

theorem TextureCache.get_idem (c : TextureCache) (d : TextureDescriptor) :
    (c.get d).2.get d = ((c.get d).1, (c.get d).2) := by
  cases hfind : c.entries.find? (fun p => decide (p.1 = d)) with
  | some p => simp [TextureCache.get, hfind]
  | none =>
    have hhead : ((d, c.next) :: c.entries).find? (fun p => decide (p.1 = d)) =
        some (d, c.next) := List.find?_cons_of_pos _ (by simp)
    simp [TextureCache.get, hfind, hhead]

/-- If the pool is well-formed and holds an entry `(d, t)`, then acquiring a
different descriptor `d'` never returns `t`. -/
theorem TextureCache.get_ne_of_mem (c : TextureCache) (d d' : TextureDescriptor)
    (t : ℕ) (hwf : c.WF) (hmem : (d, t) ∈ c.entries) (hdd : d' ≠ d) :
    (c.get d').1 ≠ t := by
  obtain ⟨hnd, hlt⟩ := hwf
  cases hfind : c.entries.find? (fun p => decide (p.1 = d')) with
  | some q =>
    have hq : q ∈ c.entries := List.mem_of_find?_eq_some hfind
    have hq1 : q.1 = d' := by simpa using List.find?_some hfind
    intro hcontra
    have hqt : q.2 = t := by simpa [TextureCache.get, hfind] using hcontra
    have : q = (d, t) := List.inj_on_of_nodup_map hnd hq hmem hqt
    exact hdd (by rw [← hq1, this])
  | none =>
    have hres : (c.get d').1 = c.next := by simp [TextureCache.get, hfind]
    rw [hres]
    exact Nat.ne_of_gt (hlt (d, t) hmem)

/-- C1: requesting a render target twice with an identical descriptor returns
the same pooled texture and leaves the pool unchanged (no duplicate
allocation); a subsequent request whose descriptor has a different size
returns a distinct texture. -/
theorem texture_cache_get_pooling (c : TextureCache) (w h w' h' : ℕ)
    (hwf : c.WF) (hne : (w', h') ≠ (w, h)) :
    (((c.get (gridShadowTextureDescriptor w h)).2.get
        (gridShadowTextureDescriptor w h)).1 =
      (c.get (gridShadowTextureDescriptor w h)).1) ∧
    (((c.get (gridShadowTextureDescriptor w h)).2.get
        (gridShadowTextureDescriptor w h)).2 =
      (c.get (gridShadowTextureDescriptor w h)).2) ∧
    (((c.get (gridShadowTextureDescriptor w h)).2.get
        (gridShadowTextureDescriptor w' h')).1 ≠
      (c.get (gridShadowTextureDescriptor w h)).1) := by
  set d := gridShadowTextureDescriptor w h with hd
  set d' := gridShadowTextureDescriptor w' h' with hd'
  have hdd : d' ≠ d := by
    intro hcontra
    apply hne
    have h1 : d'.size = d.size := by rw [hcontra]
    simp only [hd, hd', gridShadowTextureDescriptor, Extent3d.mk.injEq] at h1
    simp [h1.1, h1.2.1]
  have hidem := TextureCache.get_idem c d
  refine ⟨by rw [hidem], by rw [hidem], ?_⟩
  exact TextureCache.get_ne_of_mem (c.get d).2 d d' (c.get d).1
    (TextureCache.get_wf c d hwf) (TextureCache.get_mem c d) hdd

/-- Witness for `texture_cache_get_pooling`: the empty pool, descriptors of
sizes `(1, 2)` and `(3, 4)`. -/
theorem texture_cache_get_pooling_witness :
    ((((⟨[], 0⟩ : TextureCache).get (gridShadowTextureDescriptor 1 2)).2.get
        (gridShadowTextureDescriptor 1 2)).1 =
      ((⟨[], 0⟩ : TextureCache).get (gridShadowTextureDescriptor 1 2)).1) ∧
    ((((⟨[], 0⟩ : TextureCache).get (gridShadowTextureDescriptor 1 2)).2.get
        (gridShadowTextureDescriptor 1 2)).2 =
      ((⟨[], 0⟩ : TextureCache).get (gridShadowTextureDescriptor 1 2)).2) ∧
    ((((⟨[], 0⟩ : TextureCache).get (gridShadowTextureDescriptor 1 2)).2.get
        (gridShadowTextureDescriptor 3 4)).1 ≠
      ((⟨[], 0⟩ : TextureCache).get (gridShadowTextureDescriptor 1 2)).1) :=
  texture_cache_get_pooling ⟨[], 0⟩ 1 2 3 4
    ⟨by simp, by simp⟩ (by decide)

end GridShadowSpec

namespace GridShadowSpec

/-! ### Theorems for claims C2 and C6 -/

/-- C2, counterexample: the code computes the short axis in `f32`
arithmetic, which does not always equal `floor(M * min(w,h) / max(w,h))`.
For viewport `(33554432, 16779263)` with `M = 16384` the code yields
`(16384, 8193)` while the claimed formula yields `8192` (the `u32 → f32`
cast of `16779263` rounds up to `16779264`, and `16384 * 16779264/2^25`
is exactly `8193`). -/
theorem shadow_texture_size_floor_counterexample :
    computeShadowTextureSize 33554432 16779263 16384 = (16384, 8193) ∧
    (16384 * 16779263) / 33554432 = 8192 ∧
    (computeShadowTextureSize 33554432 16779263 16384).2 ≠
      (16384 * 16779263) / 33554432 :=
  ⟨by decide, by decide, by decide⟩

/-- C2, amended: the long axis always equals `max_texture_size` and lies on
the same side as the viewport's longer side; the short axis is
`M * min(w,h) / max(w,h)` evaluated in `f32` arithmetic and truncated, which
agrees with the exact floor on the spec's examples: viewport `(1920, 1080)`
with `M = 16384` yields `(16384, 9216)` and viewport `(1080, 1920)` yields
`(9216, 16384)` — but can differ from the exact floor for other viewports. -/
theorem shadow_texture_size_amended :
    (∀ w h M : ℕ, h ≤ w → (computeShadowTextureSize w h M).1 = M) ∧
    (∀ w h M : ℕ, w < h → (computeShadowTextureSize w h M).2 = M) ∧
    computeShadowTextureSize 1920 1080 16384 = (16384, 9216) ∧
    computeShadowTextureSize 1080 1920 16384 = (9216, 16384) := by
  refine ⟨?_, ?_, by decide, by decide⟩
  · intro w h M hle
    have hd : decide (w < h) = false := decide_eq_false (Nat.not_lt.mpr hle)
    simp [computeShadowTextureSize, hd]
  · intro w h M hlt
    have hd : decide (w < h) = true := decide_eq_true hlt
    simp [computeShadowTextureSize, hd]

/-- Witness for `shadow_texture_size_amended` at viewport `(5, 3)`, `M = 16`. -/
theorem shadow_texture_size_amended_witness :
    3 ≤ 5 ∧ (computeShadowTextureSize 5 3 16).1 = 16 :=
  ⟨by decide, shadow_texture_size_amended.1 5 3 16 (by decide)⟩

/-- C6: for every frustum footprint with nonnegative width and height, the
orthographic area built for its shadow view is exactly the rectangle
`(-w/2, -h/2, w/2, h/2)`; in particular, for width `100` and height `50`
(center at the origin) the area is `(-50, -25, 50, 25)`. -/
theorem grid_shadow_projection_area_eq :
    (∀ fi : GridFrustumIntersect, 0 ≤ fi.width → 0 ≤ fi.height →
      gridShadowProjectionArea fi =
        ⟨(-(fi.width / 2), -(fi.height / 2)), (fi.width / 2, fi.height / 2)⟩) ∧
    gridShadowProjectionArea ⟨(0, 0, 0), (0, 1, 0), 100, 50⟩ =
      ⟨(-50, -25), (50, 25)⟩ := by
  constructor
  · intro fi hw hh
    have hw2 : -(fi.width / 2) ≤ fi.width / 2 := neg_le_self (by positivity)
    have hh2 : -(fi.height / 2) ≤ fi.height / 2 := neg_le_self (by positivity)
    simp [gridShadowProjectionArea, Rect.new, div_neg,
      min_eq_left hw2, min_eq_left hh2, max_eq_right hw2, max_eq_right hh2]
  · have h100 : -((100 : ℚ) / 2) ≤ 100 / 2 := by norm_num
    have h50 : -((50 : ℚ) / 2) ≤ 50 / 2 := by norm_num
    simp [gridShadowProjectionArea, Rect.new, div_neg,
      min_eq_left h100, min_eq_left h50, max_eq_right h100, max_eq_right h50]
    norm_num

/-- Witness for `grid_shadow_projection_area_eq` at width `4`, height `6`. -/
theorem grid_shadow_projection_area_witness :
    (0 : ℚ) ≤ 4 ∧
    gridShadowProjectionArea ⟨(0, 0, 0), (0, 0, 1), 4, 6⟩ =
      ⟨(-((4 : ℚ) / 2), -((6 : ℚ) / 2)), ((4 : ℚ) / 2, (6 : ℚ) / 2)⟩ :=
  ⟨by decide,
    grid_shadow_projection_area_eq.1 ⟨(0, 0, 0), (0, 0, 1), 4, 6⟩
      (by decide) (by decide)⟩

/-! ### Theorems for claims C4 and C5 -/

theorem setup_morph_attrs (layout : MeshVertexBufferLayout) (key : MeshPipelineKey) :
    ∀ p ∈ (setup_morph_and_skinning_defs layout key).1,
      p.1 = VertexAttr.joint_index ∨ p.1 = VertexAttr.joint_weight := by
  intro p hp
  unfold setup_morph_and_skinning_defs at hp
  cases h1 : layout.contains .joint_index && layout.contains .joint_weight <;>
    cases h2 : key.morph_targets <;> simp [h1, h2] at hp <;>
      rcases hp with h | h <;> simp [h]

theorem get_layout_ok (l : MeshVertexBufferLayout) (req v : List (VertexAttr × ℕ))
    (h : l.get_layout req = .ok v) : v = req := by
  unfold MeshVertexBufferLayout.get_layout at h
  split at h
  · exact (Except.ok.inj h).symm
  · simp at h

/-- C4: for every key and mesh vertex layout accepted by
`GridShadowPipeline::specialize`, the returned descriptor has a fragment
stage with a single `R8Unorm` color target, write mask restricted to the red
channel and blending disabled; no depth/stencil state; culling disabled;
polygon mode fill; topology taken from the key; and a vertex stage consuming
the position attribute plus only skin/morph attributes injected by the mesh
layout. -/
theorem grid_shadow_pipeline_specialize_descriptor
    (key : MaterialPipelineKey) (layout : MeshVertexBufferLayout)
    (d : RenderPipelineDescriptor)
    (hok : GridShadowPipeline.specialize key layout = .ok d) :
    d.fragment.map FragmentState.targets =
      some [some ⟨.R8Unorm, none, ColorWrites.RED⟩] ∧
    d.depth_stencil = none ∧
    d.primitive.cull_mode = none ∧
    d.primitive.polygon_mode = .fill ∧
    d.primitive.topology = key.mesh_key.primitive_topology ∧
    (VertexAttr.position, 0) ∈ d.vertex.buffers.flatten ∧
    ∀ p ∈ d.vertex.buffers.flatten,
      p.1 = VertexAttr.position ∨ p.1 = VertexAttr.joint_index ∨
        p.1 = VertexAttr.joint_weight := by
  simp only [GridShadowPipeline.specialize, StandardMaterial.specialize] at hok
  cases hget : layout.get_layout
      ([((VertexAttr.position), 0)] ++ (setup_morph_and_skinning_defs layout key.mesh_key).1) with
  | error e =>
    rw [hget] at hok
    simp at hok
  | ok vbl =>
    rw [hget] at hok
    have hd : d = _ := (Except.ok.inj hok).symm
    have hv := get_layout_ok layout _ vbl hget
    subst hd
    subst hv
    refine ⟨rfl, rfl, rfl, rfl, rfl, by simp, ?_⟩
    intro p hp
    simp only [List.flatten, List.cons_append, List.nil_append, List.append_nil] at hp
    rcases List.mem_cons.mp (by simpa using hp) with h | h
    · left; rw [h]
    · rcases setup_morph_attrs layout key.mesh_key p h with h' | h'
      · right; left; exact h'
      · right; right; exact h'

/-- The concrete descriptor produced for a plain (unskinned, unmorphed)
triangle-list mesh providing only the position attribute. -/
def specializeWitnessDescriptor : RenderPipelineDescriptor where
  vertex :=
    { shader := shadowShaderHandle
      entry_point := "vertex"
      shader_defs :=
        [ShaderDef.uintDef "MAX_DIRECTIONAL_LIGHTS" maxDirectionalLights,
         ShaderDef.uintDef "MAX_CASCADES_PER_LIGHT" maxCascadesPerLight]
      buffers := [[((VertexAttr.position), 0)]] }
  fragment := some
    { shader := shadowShaderHandle
      shader_defs :=
        [ShaderDef.uintDef "MAX_DIRECTIONAL_LIGHTS" maxDirectionalLights,
         ShaderDef.uintDef "MAX_CASCADES_PER_LIGHT" maxCascadesPerLight]
      entry_point := "fragment"
      targets := [some { format := .R8Unorm, blend := none, write_mask := ColorWrites.RED }] }
  layout := [.view, .material, .meshModelOnly]
  push_constant_ranges := []
  primitive :=
    { topology := .triangleList
      strip_index_format := none
      front_face := .ccw
      cull_mode := none
      unclipped_depth := false
      polygon_mode := .fill
      conservative := false }
  depth_stencil := none
  multisample := MultisampleState.default
  label := some "grid_shadow_pipeline"

/-- Witness for `grid_shadow_pipeline_specialize_descriptor` at a concrete
key and layout. -/
theorem grid_shadow_pipeline_specialize_witness :
    GridShadowPipeline.specialize ⟨⟨.triangleList, false⟩, 7⟩ ⟨[.position]⟩ =
      .ok specializeWitnessDescriptor ∧
    (specializeWitnessDescriptor.fragment.map FragmentState.targets =
      some [some ⟨.R8Unorm, none, ColorWrites.RED⟩] ∧
    specializeWitnessDescriptor.depth_stencil = none ∧
    specializeWitnessDescriptor.primitive.cull_mode = none ∧
    specializeWitnessDescriptor.primitive.polygon_mode = .fill ∧
    specializeWitnessDescriptor.primitive.topology =
      (⟨⟨.triangleList, false⟩, 7⟩ : MaterialPipelineKey).mesh_key.primitive_topology ∧
    (VertexAttr.position, 0) ∈ specializeWitnessDescriptor.vertex.buffers.flatten ∧
    ∀ p ∈ specializeWitnessDescriptor.vertex.buffers.flatten,
      p.1 = VertexAttr.position ∨ p.1 = VertexAttr.joint_index ∨
        p.1 = VertexAttr.joint_weight) :=
  ⟨rfl, grid_shadow_pipeline_specialize_descriptor ⟨⟨.triangleList, false⟩, 7⟩
    ⟨[.position]⟩ specializeWitnessDescriptor rfl⟩

/-- C5: a second `specialize` call through the pipeline cache with an
identical key and vertex layout returns the identical cached pipeline handle
and leaves the cache unchanged (no rebuild). -/
theorem specialized_mesh_pipelines_cache_hit
    (s : SpecializedMeshPipelines) (key : MaterialPipelineKey)
    (layout : MeshVertexBufferLayout) (pid : ℕ) (s' : SpecializedMeshPipelines)
    (h : s.specialize key layout = .ok (pid, s')) :
    s'.specialize key layout = .ok (pid, s') := by
  unfold SpecializedMeshPipelines.specialize at h ⊢
  cases hfind : s.cache.find? (fun p => decide (p.1 = (key, layout))) with
  | some p =>
    rw [hfind] at h
    have h1 : p.2 = pid ∧ s = s' := by simpa using h
    rw [← h1.2, hfind]
    simp [h1.1]
  | none =>
    rw [hfind] at h
    cases hspec : GridShadowPipeline.specialize key layout with
    | error e => rw [hspec] at h; simp at h
    | ok d =>
      rw [hspec] at h
      have h1 : s.next_id = pid ∧
          (⟨((key, layout), s.next_id) :: s.cache, s.next_id + 1⟩ :
            SpecializedMeshPipelines) = s' := by simpa using h
      rw [← h1.2, ← h1.1]
      have hhead : (((key, layout), s.next_id) :: s.cache).find?
          (fun p => decide (p.1 = (key, layout))) = some ((key, layout), s.next_id) :=
        List.find?_cons_of_pos _ (by simp)
      simp [hhead]

/-- Witness for `specialized_mesh_pipelines_cache_hit`: an empty cache, a
plain triangle-list key, a position-only layout. -/
theorem specialized_mesh_pipelines_cache_hit_witness :
    (⟨[], 0⟩ : SpecializedMeshPipelines).specialize ⟨⟨.triangleList, false⟩, 7⟩
        ⟨[.position]⟩ =
      .ok (0, ⟨[((⟨⟨.triangleList, false⟩, 7⟩, ⟨[.position]⟩), 0)], 1⟩) ∧
    (⟨[((⟨⟨.triangleList, false⟩, 7⟩, ⟨[.position]⟩), 0)], 1⟩ :
        SpecializedMeshPipelines).specialize ⟨⟨.triangleList, false⟩, 7⟩
        ⟨[.position]⟩ =
      .ok (0, ⟨[((⟨⟨.triangleList, false⟩, 7⟩, ⟨[.position]⟩), 0)], 1⟩) :=
  ⟨rfl, specialized_mesh_pipelines_cache_hit ⟨[], 0⟩ ⟨⟨.triangleList, false⟩, 7⟩
    ⟨[.position]⟩ 0 ⟨[((⟨⟨.triangleList, false⟩, 7⟩, ⟨[.position]⟩), 0)], 1⟩ rfl⟩

end GridShadowSpec
